import Mathlib

/-
Verification of the TILER rotation shim (tiler_shim.c): a shallow embedding
of the tracking tables, the cleanup coordinator, the signal interposition,
the rotation-property discovery, the buffer-allocation transform and the
CRTC geometry transform, together with theorems about the specified
properties.
-/

namespace TilerShim

/-- Capacity of each fixed-size tracking table (MAX_BUFFERS in the source). -/
def MAX_BUFFERS : Nat := 32

/-- One slot of a tracking table (struct buffer_list_item): a channel fd and a
kernel handle; both fields are -1 when the slot is free. -/
structure BufferListItem where
  fd : Int
  handle : Int
  deriving DecidableEq, Repr

/-- The sentinel value stored in a free slot. -/
def emptySlot : BufferListItem := { fd := -1, handle := -1 }

/-- The table as initialised by init(): every slot set to the sentinel. -/
def initTable : List BufferListItem := List.replicate MAX_BUFFERS emptySlot

/-- Embedding of add_buffer: scan for the first slot whose fd is -1 and store
the pair there; if no slot is free the table is left unchanged (the source
only prints a warning). -/
def add_buffer : List BufferListItem → Int → Int → List BufferListItem
  | [], _, _ => []
  | b :: rest, fd, handle =>
    if b.fd ≠ -1 then b :: add_buffer rest fd handle
    else { fd := fd, handle := handle } :: rest

/-- Embedding of remove_buffer: clear (reset to sentinel) the first slot whose
handle matches; if none matches the table is unchanged. -/
def remove_buffer : List BufferListItem → Int → List BufferListItem
  | [], _ => []
  | b :: rest, handle =>
    if b.handle ≠ handle then b :: remove_buffer rest handle
    else emptySlot :: rest

/-- Embedding of add_framebuffer (same algorithm as add_buffer, on the
open_framebuffers table). -/
def add_framebuffer : List BufferListItem → Int → Int → List BufferListItem
  | [], _, _ => []
  | b :: rest, fd, handle =>
    if b.fd ≠ -1 then b :: add_framebuffer rest fd handle
    else { fd := fd, handle := handle } :: rest

/-- Embedding of remove_framebuffer (same algorithm as remove_buffer, on the
open_framebuffers table). -/
def remove_framebuffer : List BufferListItem → Int → List BufferListItem
  | [], _ => []
  | b :: rest, handle =>
    if b.handle ≠ handle then b :: remove_framebuffer rest handle
    else emptySlot :: rest

/-- Embedding of add_handle_fd: store fd in the first slot that is free (-1)
or already holds fd, so duplicate exports collapse to one entry. -/
def add_handle_fd : List Int → Int → List Int
  | [], _ => []
  | x :: rest, fd =>
    if x = -1 ∨ x = fd then fd :: rest
    else x :: add_handle_fd rest fd

/-- Number of live (occupied) entries of a table: slots whose fd is not -1. -/
def liveCount (t : List BufferListItem) : Nat :=
  List.countP (fun b => decide (b.fd ≠ -1)) t

/-- Number of slots whose handle equals the given key. -/
def matchCount (t : List BufferListItem) (k : Int) : Nat :=
  List.countP (fun b => decide (b.handle = k)) t

/-- An abstract add/remove operation on the tracked-buffer table. -/
inductive TableOp where
  | add (fd handle : Int)
  | rem (handle : Int)
  deriving DecidableEq, Repr

/-- Apply one table operation. -/
def applyOp (t : List BufferListItem) : TableOp → List BufferListItem
  | TableOp.add fd h => add_buffer t fd h
  | TableOp.rem h => remove_buffer t h

/-- Apply a sequence of table operations, left to right. -/
def runOps (t : List BufferListItem) : List TableOp → List BufferListItem
  | [] => t
  | op :: rest => runOps (applyOp t op) rest

/-- A kernel-visible action issued by the cleanup body: a close() of a file
descriptor, a DRM_IOCTL_MODE_RMFB request, or a DRM_IOCTL_MODE_DESTROY_DUMB
request. -/
inductive CAction where
  | closeFd (fd : Int)
  | rmfb (fd handle : Int)
  | destroyDumb (fd handle : Int)
  deriving DecidableEq, Repr

/-- The process state the cleanup coordinator acts on: the cleanup_started
flag and the three tracking tables. -/
structure CleanupState where
  cleanup_started : Bool
  handle_fd : List Int
  open_framebuffers : List BufferListItem
  open_buffers : List BufferListItem
  deriving DecidableEq, Repr

/-- First cleanup loop: close every tracked exported descriptor, in slot
order, skipping free (-1) slots; the return code of each close is captured
for logging only. -/
def close_fds_trace (rho : CAction → Int) : List Int → List CAction
  | [] => []
  | fd :: rest =>
    if fd = -1 then close_fds_trace rho rest
    else
      let _ret := rho (CAction.closeFd fd)
      CAction.closeFd fd :: close_fds_trace rho rest

/-- Second cleanup loop: walk the framebuffer table from slot MAX_BUFFERS-1
down to 0, skipping free slots; each live slot gets an RMFB request and its
handle is reset to -1.  The recursion processes the tail (the higher slots)
first, matching the descending loop of the source.  Returns the updated
table and the request trace. -/
def rmfb_loop (rho : CAction → Int) : List BufferListItem → List BufferListItem × List CAction
  | [] => ([], [])
  | b :: rest =>
    let r := rmfb_loop rho rest
    if b.fd = -1 then (b :: r.1, r.2)
    else
      let _ret := rho (CAction.rmfb b.fd b.handle)
      ({ b with handle := -1 } :: r.1, r.2 ++ [CAction.rmfb b.fd b.handle])

/-- Third cleanup loop: walk the buffer table from slot MAX_BUFFERS-1 down to
0, skipping free slots, issuing a DESTROY_DUMB request per live slot. -/
def destroy_loop (rho : CAction → Int) : List BufferListItem → List CAction
  | [] => []
  | b :: rest =>
    let t := destroy_loop rho rest
    if b.fd = -1 then t
    else
      let _ret := rho (CAction.destroyDumb b.fd b.handle)
      t ++ [CAction.destroyDumb b.fd b.handle]

/-- Fourth cleanup loop: close file descriptors 0..127 unconditionally. -/
def close_range_trace (rho : CAction → Int) : List Nat → List CAction
  | [] => []
  | i :: rest =>
    let _ret := rho (CAction.closeFd (Int.ofNat i))
    CAction.closeFd (Int.ofNat i) :: close_range_trace rho rest

/-- Embedding of cleanup(): if cleanup_started is set the call returns at
once with no actions; otherwise it sets the flag and runs the four loops in
order.  The oracle rho supplies the return code of each issued action (the
source captures these codes for logging only). -/
def cleanup (rho : CAction → Int) (s : CleanupState) : CleanupState × List CAction :=
  if s.cleanup_started then (s, [])
  else
    let s1 : CleanupState := { s with cleanup_started := true }
    let t1 := close_fds_trace rho s1.handle_fd
    let r2 := rmfb_loop rho s1.open_framebuffers
    let t3 := destroy_loop rho s1.open_buffers
    let t4 := close_range_trace rho (List.range 128)
    ({ s1 with open_framebuffers := r2.1 }, t1 ++ r2.2 ++ t3 ++ t4)

/-- Invoke cleanup() n times in sequence (exit hook and signal deliveries),
accumulating the total action trace. -/
def cleanup_times (rho : CAction → Int) (s : CleanupState) : Nat → CleanupState × List CAction
  | 0 => (s, [])
  | n + 1 =>
    let r1 := cleanup rho s
    let r2 := cleanup_times rho r1.1 n
    (r2.1, r1.2 ++ r2.2)

/-- Tracked exported descriptors that are live (not the -1 sentinel). -/
def live_fds (l : List Int) : List Int :=
  List.filter (fun fd => decide (fd ≠ -1)) l

/-- Table slots that are live (fd is not the -1 sentinel). -/
def live_items (t : List BufferListItem) : List BufferListItem :=
  List.filter (fun b => decide (b.fd ≠ -1)) t

/-- Recogniser for RMFB actions in a cleanup trace. -/
def is_rmfb : CAction → Bool
  | CAction.rmfb _ _ => true
  | _ => false

/-- A concrete oracle under which every issued action reports success. -/
def rho0 : CAction → Int := fun _ => 0

/-- A concrete oracle under which every issued action reports failure. -/
def rhoFail : CAction → Int := fun _ => -1

/-- A concrete pre-cleanup state with a few tracked resources. -/
def s0 : CleanupState :=
  { cleanup_started := false
    handle_fd := 5 :: -1 :: 7 :: List.replicate 29 (-1)
    open_framebuffers := add_framebuffer (add_framebuffer initTable 3 10) 3 11
    open_buffers := add_buffer initTable 3 21 }

/-- A concrete state in which cleanup has already started. -/
def sA : CleanupState :=
  { cleanup_started := true
    handle_fd := List.replicate 32 (-1)
    open_framebuffers := initTable
    open_buffers := initTable }

/-- Framebuffer table built by: add handle 10, add handle 20, remove handle
10, add handle 30.  The removal frees slot 0, so handle 30 is stored in slot
0 even though it was inserted last. -/
def fbReuse : List BufferListItem :=
  add_framebuffer (remove_framebuffer (add_framebuffer (add_framebuffer initTable 1 10) 1 20) 10) 1 30

/-- Pre-cleanup state whose framebuffer table reused a freed slot. -/
def sReuse : CleanupState :=
  { cleanup_started := false
    handle_fd := List.replicate 32 (-1)
    open_framebuffers := fbReuse
    open_buffers := initTable }

/-- A completely full tracked-buffer table. -/
def tFull : List BufferListItem := List.replicate 32 { fd := 0, handle := 0 }

/-- A table holding the single handle 5. -/
def tOne : List BufferListItem := add_buffer initTable 3 5

/-- A table in which handle 5 was added twice (two live slots share the key). -/
def tDup : List BufferListItem := add_buffer (add_buffer initTable 3 5) 3 5

/-- A signal disposition: the default, ignore, a caller-installed custom
handler, or the shim's own signal_handler (the cleanup coordinator). -/
inductive Handler where
  | dfl
  | ign
  | custom (id : Nat)
  | coordinator
  deriving DecidableEq, Repr

/-- The termination/fault signals the shim redirects (Linux numbers for
SIGFPE, SIGILL, SIGSEGV, SIGBUS, SIGABRT, SIGSYS, SIGTERM, SIGINT,
SIGQUIT), in the order of the switch in the source. -/
def term_signals : List Nat := [8, 4, 11, 7, 6, 31, 15, 2, 3]

/-- Embedding of the interposed signal() entry point: the handler that is
passed on to the real registration primitive.  A non-default handler is
forwarded unchanged; installing SIG_DFL on one of the termination signals
installs signal_handler instead; SIG_DFL on any other signal is forwarded
unchanged. -/
def shim_signal (signum : Nat) (handler : Handler) : Handler :=
  if handler ≠ Handler.dfl then handler
  else if signum ∈ term_signals then Handler.coordinator
  else handler

/-- Embedding of register_handler, run at init for each termination signal:
the resulting disposition given the currently installed one (queried via
sigaction).  Only a signal still at its default disposition is redirected. -/
def register_handler (oldact : Handler) : Handler :=
  if oldact = Handler.dfl then Handler.coordinator else oldact

/-- Driver responses consumed by get_rotation_property_key.  getProperties
models DRM_IOCTL_MODE_OBJ_GETPROPERTIES on a plane: the ioctl return code
and the property-id array the kernel filled in.  getProperty models
DRM_IOCTL_MODE_GETPROPERTY on a property id: the ioctl return code and the
name field of the filled descriptor. -/
structure PropDriver where
  getProperties : Nat → Int × List Nat
  getProperty : Nat → Int × String

/-- Conversion of a uint32_t value to a C int, as in the return statement
returning properties[i] from the int-valued function. -/
def u32_to_int (x : Nat) : Int :=
  if x < 2 ^ 31 then Int.ofNat x else Int.ofNat x - 2 ^ 32

/-- The property-scanning loop of get_rotation_property_key: fetch each
descriptor in order; a failed fetch returns its code, a descriptor named
"rotation" returns its id, and an exhausted list returns -1. -/
def find_rotation (drv : PropDriver) : List Nat → Int
  | [] => -1
  | p :: rest =>
    if (drv.getProperty p).1 ≠ 0 then (drv.getProperty p).1
    else if (drv.getProperty p).2 = "rotation" then u32_to_int p
    else find_rotation drv rest

/-- Embedding of get_rotation_property_key: list the plane's properties (a
failed list request returns its code) and scan them for "rotation". -/
def get_rotation_property_key (drv : PropDriver) (plane : Nat) : Int :=
  if (drv.getProperties plane).1 ≠ 0 then (drv.getProperties plane).1
  else find_rotation drv (drv.getProperties plane).2

/-- Allocation flag constants from omap_drm.h. -/
def OMAP_BO_SCANOUT : Nat := 0x1

/-- Write-combined caching flag from omap_drm.h. -/
def OMAP_BO_WC : Nat := 0x2

/-- 16-bit tiled mode flag from omap_drm.h. -/
def OMAP_BO_TILED_16 : Nat := 0x200

/-- 32-bit tiled mode flag from omap_drm.h. -/
def OMAP_BO_TILED_32 : Nat := 0x300

/-- DRM_MODE_ROTATE_270 from drm_mode.h (1 << 3). -/
def DRM_MODE_ROTATE_270 : Nat := 8

/-- DRM_CLIENT_CAP_ATOMIC from drm.h. -/
def DRM_CLIENT_CAP_ATOMIC : Nat := 3

/-- The hardware-mandated fixed allocation width substituted for every tiled
allocation. -/
def fixed_width : Nat := 8192

/-- The DRM_IOCTL_OMAP_GEM_NEW request issued by the transform.  The
size.tiled.width and size.tiled.height fields are 16-bit in the ABI. -/
structure GemNewReq where
  tiled_width : Nat
  tiled_height : Nat
  flags : Nat
  deriving DecidableEq, Repr

/-- An atomic-commit request issued by the rotation loop: one object (the
plane), one property, one value, submitted with DRM_MODE_ATOMIC_NONBLOCK. -/
structure AtomicCommitReq where
  obj : Nat
  prop : Int
  value : Nat
  nonblock : Bool
  deriving DecidableEq, Repr

/-- Driver responses consumed by the CREATE_DUMB interception: the GEM_NEW
call result (return code and the handle field after the call), the
SET_CLIENT_CAP result, the GETPLANERESOURCES result (return code and filled
plane-id array), the property driver, and the ATOMIC commit result.  The
source ignores the SET_CLIENT_CAP and GETPLANERESOURCES return codes. -/
structure AllocDriver where
  gemNew : GemNewReq → Int × Nat
  setClientCap : Nat → Nat → Int
  planeRes : Int × List Nat
  props : PropDriver
  atomicCommit : AtomicCommitReq → Int

/-- One iteration of the rotation loop for a plane: discover the rotation
property key; a negative key skips the plane (continue), otherwise a
non-blocking atomic commit of ROTATE_270 is issued (its return code is
logged only). -/
def plane_rotation (A : AllocDriver) (plane : Nat) : List AtomicCommitReq :=
  let rot_prop := get_rotation_property_key A.props plane
  if rot_prop < 0 then []
  else
    let req : AtomicCommitReq :=
      { obj := plane, prop := rot_prop, value := DRM_MODE_ROTATE_270, nonblock := true }
    let _aresult := A.atomicCommit req
    [req]

/-- The commits issued by the rotation loop over the enumerated planes. -/
def rotation_commits (A : AllocDriver) : List Nat → List AtomicCommitReq
  | [] => []
  | p :: rest => plane_rotation A p ++ rotation_commits A rest

/-- The struct drm_mode_create_dumb argument block (all fields uint32 except
the uint64 size). -/
structure CreateDumbArgs where
  height : Nat
  width : Nat
  bpp : Nat
  flags : Nat
  handle : Nat
  pitch : Nat
  size : Nat
  deriving DecidableEq, Repr

/-- Everything observable about one run of the CREATE_DUMB interception: the
returned status, the argument block as written back, the GEM_NEW request
that was issued, the atomic commits issued by the rotation loop, and the
tracked-buffer table afterwards. -/
structure CreateDumbOutcome where
  ret : Int
  args : CreateDumbArgs
  issued : GemNewReq
  commits : List AtomicCommitReq
  buffers : List BufferListItem
  deriving DecidableEq, Repr

/-- Embedding of the DRM_IOCTL_MODE_CREATE_DUMB branch of ioctl(): select
the tiling mode from bpp (any bpp other than 32 and 16 is logged and falls
back to the 32-bit case), issue GEM_NEW with the fixed width and the
requested height (both truncated to the 16-bit tiled size fields), write
handle, pitch and size back into the argument block (the size product is
32-bit arithmetic between the uint32 pitch and height fields), run the
best-effort rotation loop, record the handle, and return the GEM_NEW status. -/
def create_dumb_branch (A : AllocDriver) (fd : Int) (orig : CreateDumbArgs)
    (bufs : List BufferListItem) : CreateDumbOutcome :=
  let sixteen_bpp : Bool :=
    if orig.bpp = 32 then false else if orig.bpp = 16 then true else false
  let gem_new : GemNewReq :=
    { tiled_width := fixed_width % 2 ^ 16
      tiled_height := orig.height % 2 ^ 16
      flags := (if sixteen_bpp then OMAP_BO_TILED_16 else OMAP_BO_TILED_32)
                 ||| OMAP_BO_WC ||| OMAP_BO_SCANOUT }
  let gres := A.gemNew gem_new
  let pitch := if sixteen_bpp then 2 * fixed_width else 4 * fixed_width
  let args2 : CreateDumbArgs :=
    { orig with handle := gres.2 % 2 ^ 32
                pitch := pitch
                size := pitch * orig.height % 2 ^ 32 }
  let _capret := A.setClientCap DRM_CLIENT_CAP_ATOMIC 1
  let planes := A.planeRes.2
  let commits := rotation_commits A planes
  let bufs2 := add_buffer bufs fd (u32_to_int (gres.2 % 2 ^ 32))
  { ret := gres.1, args := args2, issued := gem_new, commits := commits, buffers := bufs2 }

/-- The struct drm_mode_modeinfo embedded in a CRTC argument block (the
flags and type fields are named mflags and mode_type here). -/
structure ModeInfo where
  clock : Nat
  hdisplay : Nat
  hsync_start : Nat
  hsync_end : Nat
  htotal : Nat
  hskew : Nat
  vdisplay : Nat
  vsync_start : Nat
  vsync_end : Nat
  vtotal : Nat
  vscan : Nat
  vrefresh : Nat
  mflags : Nat
  mode_type : Nat
  name : String
  deriving DecidableEq, Repr

/-- The struct drm_mode_crtc argument block. -/
structure ModeCrtc where
  set_connectors_ptr : Nat
  count_connectors : Nat
  crtc_id : Nat
  fb_id : Nat
  x : Nat
  y : Nat
  gamma_size : Nat
  mode_valid : Nat
  mode : ModeInfo
  deriving DecidableEq, Repr

/-- The geometry transform applied to an embedded mode: exchange hdisplay
and vdisplay through a temporary, touching nothing else. -/
def swap_mode (m : ModeInfo) : ModeInfo :=
  { m with hdisplay := m.vdisplay, vdisplay := m.hdisplay }

/-- The geometry transform on a whole CRTC argument block. -/
def swap_crtc (c : ModeCrtc) : ModeCrtc :=
  { c with mode := swap_mode c.mode }

/-- Driver responses for the SETCRTC and GETCRTC requests: return code and
the argument block after the real call. -/
structure CrtcDriver where
  setcrtc : ModeCrtc → Int × ModeCrtc
  getcrtc : ModeCrtc → Int × ModeCrtc

/-- The SETCRTC path of ioctl(): swap before delegating to the real entry
point. -/
def ioctl_setcrtc (drv : CrtcDriver) (argp : ModeCrtc) : Int × ModeCrtc :=
  drv.setcrtc (swap_crtc argp)

/-- The GETCRTC path of ioctl(): delegate first, swap the returned block. -/
def ioctl_getcrtc (drv : CrtcDriver) (argp : ModeCrtc) : Int × ModeCrtc :=
  ((drv.getcrtc argp).1, swap_crtc (drv.getcrtc argp).2)

/-- A concrete property driver: plane 7 carries zpos(0), rotation(5),
alpha(3); plane 8 has no rotation property; plane 9 fails the property-list
request; plane 10 fails a descriptor fetch. -/
def propDriverEx : PropDriver :=
  { getProperties := fun plane =>
      if plane = 7 then (0, [0, 5, 3])
      else if plane = 8 then (0, [0, 3])
      else if plane = 9 then (-22, [])
      else if plane = 10 then (0, [4])
      else (0, [])
    getProperty := fun p =>
      if p = 0 then (0, "zpos")
      else if p = 5 then (0, "rotation")
      else if p = 3 then (0, "alpha")
      else if p = 4 then (-14, "bad")
      else (0, "other") }

/-- A GEM_NEW behaviour that succeeds with handle 42. -/
def gemNewOk : GemNewReq → Int × Nat := fun _ => (0, 42)

/-- A concrete driver on which every step succeeds. -/
def allocDriverEx : AllocDriver :=
  { gemNew := gemNewOk
    setClientCap := fun _ _ => 0
    planeRes := (0, [7, 8])
    props := propDriverEx
    atomicCommit := fun _ => 0 }

/-- A driver with the same GEM_NEW behaviour as allocDriverEx on which every
rotation-application step fails. -/
def allocDriverRotFail : AllocDriver :=
  { gemNew := gemNewOk
    setClientCap := fun _ _ => -1
    planeRes := (-1, [3])
    props := { getProperties := fun _ => (-5, []), getProperty := fun _ => (-5, "") }
    atomicCommit := fun _ => -22 }

/-- A driver whose GEM_NEW call fails with -12, leaving handle 0. -/
def allocDriverFail : AllocDriver :=
  { gemNew := fun _ => (-12, 0)
    setClientCap := fun _ _ => 0
    planeRes := (0, [])
    props := { getProperties := fun _ => (0, []), getProperty := fun _ => (0, "") }
    atomicCommit := fun _ => 0 }

/-- The allocation request of the specification's example: 800x480 at 32
bpp. -/
def a32 : CreateDumbArgs :=
  { height := 480, width := 800, bpp := 32, flags := 0, handle := 0, pitch := 0, size := 0 }

/-- The same request at 16 bpp. -/
def b16 : CreateDumbArgs :=
  { height := 480, width := 800, bpp := 16, flags := 0, handle := 0, pitch := 0, size := 0 }

/-- The same request at the unsupported 8 bpp. -/
def c8 : CreateDumbArgs :=
  { height := 480, width := 800, bpp := 8, flags := 0, handle := 0, pitch := 0, size := 0 }

/-- An allocation request whose height 131072 = 2^17 overflows both the
16-bit tiled height field and the 32-bit size product. -/
def aBig : CreateDumbArgs :=
  { height := 131072, width := 800, bpp := 32, flags := 0, handle := 0, pitch := 0, size := 0 }

end TilerShim

namespace TilerShim

theorem add_buffer_length (t : List BufferListItem) (fd h : Int) :
    (add_buffer t fd h).length = t.length := by
  induction t with
  | nil => rfl
  | cons b rest ih =>
    simp only [add_buffer]
    by_cases hb : b.fd ≠ -1
    · simp [hb, ih]
    · simp [hb]

theorem remove_buffer_length (t : List BufferListItem) (k : Int) :
    (remove_buffer t k).length = t.length := by
  induction t with
  | nil => rfl
  | cons b rest ih =>
    simp only [remove_buffer]
    by_cases hb : b.handle ≠ k
    · simp [hb, ih]
    · simp [hb]

theorem runOps_length (ops : List TableOp) (t : List BufferListItem) :
    (runOps t ops).length = t.length := by
  induction ops generalizing t with
  | nil => rfl
  | cons op rest ih =>
    cases op with
    | add fd h => simp [runOps, applyOp, ih, add_buffer_length]
    | rem h => simp [runOps, applyOp, ih, remove_buffer_length]

theorem liveCount_le_length (t : List BufferListItem) : liveCount t ≤ t.length :=
  List.countP_le_length _

theorem add_buffer_full (t : List BufferListItem) (fd k : Int)
    (h : ∀ b ∈ t, b.fd ≠ -1) : add_buffer t fd k = t := by
  induction t with
  | nil => rfl
  | cons b rest ih =>
    have hb : b.fd ≠ -1 := h b (by simp)
    simp only [add_buffer, if_pos hb]
    rw [ih fun x hx => h x (by simp [hx])]

theorem remove_buffer_no_match (t : List BufferListItem) (k : Int)
    (h : ∀ b ∈ t, b.handle ≠ k) : remove_buffer t k = t := by
  induction t with
  | nil => rfl
  | cons b rest ih =>
    have hb : b.handle ≠ k := h b (by simp)
    simp only [remove_buffer, if_pos hb]
    rw [ih fun x hx => h x (by simp [hx])]

theorem matchCount_zero_no_match (t : List BufferListItem) (k : Int)
    (h : matchCount t k = 0) : ∀ b ∈ t, b.handle ≠ k := by
  intro b hb
  simp only [matchCount, List.countP_eq_zero] at h
  have := h b hb
  simpa using this

theorem remove_buffer_idem (t : List BufferListItem) (k : Int)
    (h : matchCount t k ≤ 1) :
    remove_buffer (remove_buffer t k) k = remove_buffer t k := by
  induction t with
  | nil => rfl
  | cons b rest ih =>
    by_cases hb : b.handle = k
    · have h1 : remove_buffer (b :: rest) k = emptySlot :: rest := by
        simp [remove_buffer, hb]
      rw [h1]
      have hcount : matchCount rest k = 0 := by
        have h2 : matchCount (b :: rest) k = matchCount rest k + 1 := by
          simp [matchCount, List.countP_cons, hb]
        omega
      by_cases hk : k = -1
      · subst hk
        simp [remove_buffer, emptySlot]
      · have hes : emptySlot.handle ≠ k := fun hkk => hk ((show (-1 : Int) = k from hkk)).symm
        simp only [remove_buffer, if_pos hes]
        rw [remove_buffer_no_match rest k (matchCount_zero_no_match rest k hcount)]
    · have hrest : matchCount rest k ≤ 1 := by
        have h2 : matchCount (b :: rest) k = matchCount rest k := by
          simp [matchCount, List.countP_cons, hb]
        omega
      simp only [remove_buffer, if_pos hb]
      rw [ih hrest]

theorem cleanup_started_after (rho : CAction → Int) (s : CleanupState) :
    (cleanup rho s).1.cleanup_started = true := by
  by_cases h : s.cleanup_started <;> simp [cleanup, h]

theorem cleanup_noop (rho : CAction → Int) (s : CleanupState)
    (h : s.cleanup_started = true) : cleanup rho s = (s, []) := by
  simp [cleanup, h]

theorem cleanup_times_noop (rho : CAction → Int) (s : CleanupState) (n : Nat)
    (h : s.cleanup_started = true) : cleanup_times rho s n = (s, []) := by
  induction n with
  | zero => rfl
  | succ m ih =>
    simp only [cleanup_times, cleanup_noop rho s h]
    simpa using ih

theorem close_fds_trace_eq (rho : CAction → Int) (l : List Int) :
    close_fds_trace rho l = (live_fds l).map CAction.closeFd := by
  induction l with
  | nil => rfl
  | cons fd rest ih =>
    by_cases h : fd = -1
    · simp [close_fds_trace, h, live_fds, ih]
    · simp [close_fds_trace, h, live_fds, ih]

theorem rmfb_trace_eq (rho : CAction → Int) (t : List BufferListItem) :
    (rmfb_loop rho t).2
      = ((live_items t).map (fun b => CAction.rmfb b.fd b.handle)).reverse := by
  induction t with
  | nil => rfl
  | cons b rest ih =>
    by_cases h : b.fd = -1
    · simp [rmfb_loop, h, live_items, ih]
    · simp [rmfb_loop, h, live_items, ih]

theorem destroy_trace_eq (rho : CAction → Int) (t : List BufferListItem) :
    destroy_loop rho t
      = ((live_items t).map (fun b => CAction.destroyDumb b.fd b.handle)).reverse := by
  induction t with
  | nil => rfl
  | cons b rest ih =>
    by_cases h : b.fd = -1
    · simp [destroy_loop, h, live_items, ih]
    · simp [destroy_loop, h, live_items, ih]

theorem close_range_trace_eq (rho : CAction → Int) (l : List Nat) :
    close_range_trace rho l = l.map (fun i => CAction.closeFd (Int.ofNat i)) := by
  induction l with
  | nil => rfl
  | cons i rest ih => simp [close_range_trace, ih]

/-- C3 (amended): for every sequence of add/remove operations starting from
the initialised table, the table never holds more than MAX_BUFFERS live
entries; add_buffer on a full table leaves the table unchanged; remove_buffer
is idempotent whenever the removed key occupies at most one slot (which the
uniqueness invariant of live handles guarantees); and removing an untracked
key is a no-op. -/
theorem tracked_table_invariants (ops : List TableOp) (t u v : List BufferListItem)
    (fd k k2 k3 : Int)
    (hfull : ∀ b ∈ t, b.fd ≠ -1)
    (hone : matchCount u k2 ≤ 1)
    (hnone : ∀ b ∈ v, b.handle ≠ k3) :
    liveCount (runOps initTable ops) ≤ MAX_BUFFERS
    ∧ add_buffer t fd k = t
    ∧ remove_buffer (remove_buffer u k2) k2 = remove_buffer u k2
    ∧ remove_buffer v k3 = v := by
  refine ⟨?_, add_buffer_full t fd k hfull, remove_buffer_idem u k2 hone,
    remove_buffer_no_match v k3 hnone⟩
  have h1 := liveCount_le_length (runOps initTable ops)
  rw [runOps_length] at h1
  simpa [initTable, MAX_BUFFERS] using h1

/-- Witness for C3 at concrete tables: a two-operation run, an add on a full
table, a double removal of the unique handle 5, and a removal of the
untracked key 99. -/
theorem tracked_table_invariants_witness :
    liveCount (runOps initTable [TableOp.add 3 5, TableOp.rem 5]) ≤ MAX_BUFFERS
    ∧ add_buffer tFull 3 9 = tFull
    ∧ remove_buffer (remove_buffer tOne 5) 5 = remove_buffer tOne 5
    ∧ remove_buffer tOne 99 = tOne :=
  tracked_table_invariants [TableOp.add 3 5, TableOp.rem 5] tFull tOne tOne 3 9 5 99
    (by decide) (by decide) (by decide)

/-- C3 counterexample: when the same handle 5 is added twice, removing it
twice clears both slots while removing it once clears only the first, so
remove_buffer is not unconditionally idempotent over all add/remove
sequences. -/
theorem remove_buffer_idem_cex :
    remove_buffer (remove_buffer tDup 5) 5 ≠ remove_buffer tDup 5 := by decide

/-- C4: invoking cleanup any number n ≥ 1 of times from a flag-clear state
produces exactly the state and action trace of the first invocation: the
first call sets cleanup_started and runs the body, and a call on a state
whose flag is already set returns at once with an empty trace. -/
theorem cleanup_body_runs_once (rho : CAction → Int) (s s2 : CleanupState) (n : Nat)
    (h : s.cleanup_started = false) (hn : 1 ≤ n) (h2 : s2.cleanup_started = true) :
    cleanup_times rho s n = cleanup rho s
    ∧ (cleanup rho s).1.cleanup_started = true
    ∧ cleanup rho s2 = (s2, []) := by
  refine ⟨?_, cleanup_started_after rho s, cleanup_noop rho s2 h2⟩
  cases n with
  | zero => omega
  | succ m =>
    simp only [cleanup_times]
    rw [cleanup_times_noop rho (cleanup rho s).1 m (cleanup_started_after rho s)]
    simp

/-- Witness for C4: three deliveries on a concrete tracked state collapse to
a single execution of the body. -/
theorem cleanup_body_runs_once_witness :
    cleanup_times rho0 s0 3 = cleanup rho0 s0
    ∧ (cleanup rho0 s0).1.cleanup_started = true
    ∧ cleanup rho0 sA = (sA, []) :=
  cleanup_body_runs_once rho0 s0 sA 3 rfl (by omega) rfl

/-- C5 (amended): the cleanup body issues, in order: a close of every
tracked exported descriptor, RMFB requests for the live framebuffer slots in
reverse slot order (which is reverse insertion order whenever no freed slot
was reused), DESTROY_DUMB requests for the live buffer slots in reverse slot
order, and closes of descriptors 0..127.  The trace does not depend on the
oracle rho supplying each action's return code, so no individual failure
stops the remaining steps. -/
theorem cleanup_body_order (rho : CAction → Int) (s : CleanupState)
    (h : s.cleanup_started = false) :
    (cleanup rho s).2 =
      (live_fds s.handle_fd).map CAction.closeFd
      ++ ((live_items s.open_framebuffers).map (fun b => CAction.rmfb b.fd b.handle)).reverse
      ++ ((live_items s.open_buffers).map (fun b => CAction.destroyDumb b.fd b.handle)).reverse
      ++ (List.range 128).map (fun i => CAction.closeFd (Int.ofNat i)) := by
  simp [cleanup, h, close_fds_trace_eq, rmfb_trace_eq, destroy_trace_eq, close_range_trace_eq]

/-- Witness for C5 on a concrete state with tracked descriptors, two
framebuffers and one buffer. -/
theorem cleanup_body_order_witness :
    (cleanup rho0 s0).2 =
      (live_fds s0.handle_fd).map CAction.closeFd
      ++ ((live_items s0.open_framebuffers).map (fun b => CAction.rmfb b.fd b.handle)).reverse
      ++ ((live_items s0.open_buffers).map (fun b => CAction.destroyDumb b.fd b.handle)).reverse
      ++ (List.range 128).map (fun i => CAction.closeFd (Int.ofNat i)) :=
  cleanup_body_order rho0 s0 rfl

/-- C5 counterexample: in sReuse the framebuffers were inserted in the order
10, 20, (10 removed), 30, so handle 30 sits in slot 0 and handle 20 in slot
1.  Reverse insertion order of the live entries would demand handle 30
first, but the cleanup body issues the RMFB for handle 20 first, because the
loop walks slots from high to low. -/
theorem cleanup_insertion_order_cex :
    List.filter is_rmfb (cleanup rho0 sReuse).2 = [CAction.rmfb 1 20, CAction.rmfb 1 30]
    ∧ ([CAction.rmfb 1 20, CAction.rmfb 1 30] : List CAction)
        ≠ [CAction.rmfb 1 30, CAction.rmfb 1 20] := by
  exact ⟨by decide, by decide⟩

/-- C9: the signal interposition forwards every non-default handler
unchanged; installing the default disposition on a termination-class signal
installs the coordinator's handler instead; the default disposition on any
other signal is forwarded unchanged; and at initialization register_handler
redirects a signal only when it is still at its default disposition. -/
theorem signal_interposition (signum t n : Nat) (h cur : Handler)
    (hh : h ≠ Handler.dfl) (ht : t ∈ term_signals) (hn : n ∉ term_signals)
    (hc : cur ≠ Handler.dfl) :
    shim_signal signum h = h
    ∧ shim_signal t Handler.dfl = Handler.coordinator
    ∧ shim_signal n Handler.dfl = Handler.dfl
    ∧ register_handler Handler.dfl = Handler.coordinator
    ∧ register_handler cur = cur := by
  refine ⟨?_, ?_, ?_, ?_, ?_⟩ <;>
    simp [shim_signal, register_handler, hh, ht, hn, hc]

/-- Witness for C9: a custom handler on SIGSEGV is forwarded, SIG_DFL on
SIGTERM becomes the coordinator, SIG_DFL on signal 99 stays, and an ignored
signal is not redirected at init. -/
theorem signal_interposition_witness :
    shim_signal 11 (Handler.custom 1) = Handler.custom 1
    ∧ shim_signal 15 Handler.dfl = Handler.coordinator
    ∧ shim_signal 99 Handler.dfl = Handler.dfl
    ∧ register_handler Handler.dfl = Handler.coordinator
    ∧ register_handler Handler.ign = Handler.ign :=
  signal_interposition 11 15 99 (Handler.custom 1) Handler.ign
    (by decide) (by decide) (by decide) (by decide)

theorem find_rotation_skip (drv : PropDriver) (l1 rest : List Nat)
    (h : ∀ q ∈ l1, (drv.getProperty q).1 = 0 ∧ (drv.getProperty q).2 ≠ "rotation") :
    find_rotation drv (l1 ++ rest) = find_rotation drv rest := by
  induction l1 with
  | nil => rfl
  | cons q l ih =>
    have hq := h q (by simp)
    rw [List.cons_append]
    rw [show find_rotation drv (q :: (l ++ rest)) = find_rotation drv (l ++ rest) from by
      simp [find_rotation, hq.1, hq.2]]
    exact ih fun x hx => h x (by simp [hx])

theorem key_of_props_ok (drv : PropDriver) (plane : Nat)
    (h : (drv.getProperties plane).1 = 0) :
    get_rotation_property_key drv plane = find_rotation drv (drv.getProperties plane).2 := by
  simp [get_rotation_property_key, h]

theorem find_rotation_none (drv : PropDriver) (l : List Nat)
    (h : ∀ q ∈ l, (drv.getProperty q).1 = 0 ∧ (drv.getProperty q).2 ≠ "rotation") :
    find_rotation drv l = -1 := by
  have h1 : find_rotation drv (l ++ []) = find_rotation drv [] :=
    find_rotation_skip drv l [] h
  simpa using h1

theorem rotation_commits_append (A : AllocDriver) (l1 l2 : List Nat) :
    rotation_commits A (l1 ++ l2) = rotation_commits A l1 ++ rotation_commits A l2 := by
  induction l1 with
  | nil => rfl
  | cons p rest ih => simp [rotation_commits, ih]

/-- C6: property discovery returns the id of the first property named
"rotation" (for plane, whose list splits as l1 ++ p :: l2 with no rotation
in l1); returns -1 when no property matches (plane q1); returns the negative
code of a failed property-list request (plane q2) or of a failed descriptor
fetch (plane q3); a plane with a negative key gets no atomic commit; and the
rotation loop treats planes independently, so skipping one plane leaves the
commits of the others intact. -/
theorem rotation_property_discovery
    (A : AllocDriver) (plane q1 q2 q3 : Nat) (l1 l2 m1 m2 : List Nat) (p r : Nat)
    (planesL planesR : List Nat) (e e2 : Int)
    (h1 : (A.props.getProperties plane).1 = 0)
    (h2 : (A.props.getProperties plane).2 = l1 ++ p :: l2)
    (h3 : ∀ q ∈ l1, (A.props.getProperty q).1 = 0 ∧ (A.props.getProperty q).2 ≠ "rotation")
    (h4 : (A.props.getProperty p).1 = 0)
    (h5 : (A.props.getProperty p).2 = "rotation")
    (h6 : p < 2 ^ 31)
    (h7 : (A.props.getProperties q1).1 = 0)
    (h8 : ∀ q ∈ (A.props.getProperties q1).2,
        (A.props.getProperty q).1 = 0 ∧ (A.props.getProperty q).2 ≠ "rotation")
    (h9 : (A.props.getProperties q2).1 = e) (h10 : e < 0)
    (h11 : (A.props.getProperties q3).1 = 0)
    (h12 : (A.props.getProperties q3).2 = m1 ++ r :: m2)
    (h13 : ∀ q ∈ m1, (A.props.getProperty q).1 = 0 ∧ (A.props.getProperty q).2 ≠ "rotation")
    (h14 : (A.props.getProperty r).1 = e2) (h15 : e2 < 0) :
    get_rotation_property_key A.props plane = Int.ofNat p
    ∧ get_rotation_property_key A.props q1 = -1
    ∧ get_rotation_property_key A.props q2 = e
    ∧ get_rotation_property_key A.props q3 = e2
    ∧ plane_rotation A q2 = []
    ∧ rotation_commits A (planesL ++ planesR)
        = rotation_commits A planesL ++ rotation_commits A planesR := by
  have key2 : get_rotation_property_key A.props q2 = e := by
    simp only [get_rotation_property_key, h9]
    have he : e ≠ 0 := by omega
    simp [he]
  refine ⟨?_, ?_, key2, ?_, ?_, rotation_commits_append A planesL planesR⟩
  · rw [key_of_props_ok A.props plane h1, h2, find_rotation_skip A.props l1 (p :: l2) h3]
    have hkey : find_rotation A.props (p :: l2) = u32_to_int p := by
      simp [find_rotation, h4, h5]
    rw [hkey]
    unfold u32_to_int
    rw [if_pos h6]
  · rw [key_of_props_ok A.props q1 h7]
    exact find_rotation_none A.props _ h8
  · rw [key_of_props_ok A.props q3 h11, h12, find_rotation_skip A.props m1 (r :: m2) h13]
    have he2 : e2 ≠ 0 := by omega
    simp [find_rotation, h14, he2]
  · simp only [plane_rotation, key2]
    simp [h10]

/-- Witness for C6 at the specification's example: plane 7 exposes
zpos(0), rotation(5), alpha(3) and discovery returns 5; plane 8 has no
rotation property and yields -1; plane 9's list request fails with -22;
plane 10's descriptor fetch fails with -14; plane 9 receives no commit; the
commits over planes [7] ++ [8, 9] split per plane. -/
theorem rotation_property_discovery_witness :
    get_rotation_property_key allocDriverEx.props 7 = Int.ofNat 5
    ∧ get_rotation_property_key allocDriverEx.props 8 = -1
    ∧ get_rotation_property_key allocDriverEx.props 9 = -22
    ∧ get_rotation_property_key allocDriverEx.props 10 = -14
    ∧ plane_rotation allocDriverEx 9 = []
    ∧ rotation_commits allocDriverEx ([7] ++ [8, 9])
        = rotation_commits allocDriverEx [7] ++ rotation_commits allocDriverEx [8, 9] :=
  rotation_property_discovery allocDriverEx 7 8 9 10 [0] [3] [] [] 5 4 [7] [8, 9] (-22) (-14)
    (by decide) (by decide) (by decide) (by decide) (by decide) (by decide) (by decide)
    (by decide) (by decide) (by decide) (by decide) (by decide) (by decide) (by decide)
    (by decide)

/-- C1 (amended): for every driver and request, the interception issues
GEM_NEW with the fixed width 8192 (independent of the requested width) and
the requested height truncated to the 16-bit tiled height field; a 32-bpp
request (a) uses the 32-bit-tiled flag and writes back pitch = 4*8192 and
size = pitch*height truncated to 32 bits; a 16-bpp request (b) uses the
16-bit-tiled flag and pitch = 2*8192; any other bpp (c) falls back to the
32-bit-tiled case rather than failing. -/
theorem create_dumb_transform (A : AllocDriver) (fd : Int)
    (a b c : CreateDumbArgs) (bufs : List BufferListItem)
    (ha : a.bpp = 32) (hb : b.bpp = 16) (hc1 : c.bpp ≠ 32) (hc2 : c.bpp ≠ 16) :
    (create_dumb_branch A fd a bufs).issued.tiled_width = 8192
    ∧ (create_dumb_branch A fd a bufs).issued.tiled_height = a.height % 2 ^ 16
    ∧ (create_dumb_branch A fd a bufs).issued.flags
        = (OMAP_BO_TILED_32 ||| OMAP_BO_WC ||| OMAP_BO_SCANOUT)
    ∧ (create_dumb_branch A fd a bufs).args.pitch = 4 * 8192
    ∧ (create_dumb_branch A fd a bufs).args.size = 4 * 8192 * a.height % 2 ^ 32
    ∧ (create_dumb_branch A fd b bufs).issued.tiled_width = 8192
    ∧ (create_dumb_branch A fd b bufs).issued.tiled_height = b.height % 2 ^ 16
    ∧ (create_dumb_branch A fd b bufs).issued.flags
        = (OMAP_BO_TILED_16 ||| OMAP_BO_WC ||| OMAP_BO_SCANOUT)
    ∧ (create_dumb_branch A fd b bufs).args.pitch = 2 * 8192
    ∧ (create_dumb_branch A fd b bufs).args.size = 2 * 8192 * b.height % 2 ^ 32
    ∧ (create_dumb_branch A fd c bufs).issued.flags
        = (OMAP_BO_TILED_32 ||| OMAP_BO_WC ||| OMAP_BO_SCANOUT)
    ∧ (create_dumb_branch A fd c bufs).args.pitch = 4 * 8192
    ∧ (create_dumb_branch A fd c bufs).args.size = 4 * 8192 * c.height % 2 ^ 32 := by
  refine ⟨?_, ?_, ?_, ?_, ?_, ?_, ?_, ?_, ?_, ?_, ?_, ?_, ?_⟩ <;>
    simp [create_dumb_branch, fixed_width, ha, hb, hc1, hc2]

/-- Witness for C1 at the specification's example requests 800x480 with
bpp 32, 16 and 8. -/
theorem create_dumb_transform_witness :
    (create_dumb_branch allocDriverEx 3 a32 initTable).issued.tiled_width = 8192
    ∧ (create_dumb_branch allocDriverEx 3 a32 initTable).issued.tiled_height = a32.height % 2 ^ 16
    ∧ (create_dumb_branch allocDriverEx 3 a32 initTable).issued.flags
        = (OMAP_BO_TILED_32 ||| OMAP_BO_WC ||| OMAP_BO_SCANOUT)
    ∧ (create_dumb_branch allocDriverEx 3 a32 initTable).args.pitch = 4 * 8192
    ∧ (create_dumb_branch allocDriverEx 3 a32 initTable).args.size
        = 4 * 8192 * a32.height % 2 ^ 32
    ∧ (create_dumb_branch allocDriverEx 3 b16 initTable).issued.tiled_width = 8192
    ∧ (create_dumb_branch allocDriverEx 3 b16 initTable).issued.tiled_height = b16.height % 2 ^ 16
    ∧ (create_dumb_branch allocDriverEx 3 b16 initTable).issued.flags
        = (OMAP_BO_TILED_16 ||| OMAP_BO_WC ||| OMAP_BO_SCANOUT)
    ∧ (create_dumb_branch allocDriverEx 3 b16 initTable).args.pitch = 2 * 8192
    ∧ (create_dumb_branch allocDriverEx 3 b16 initTable).args.size
        = 2 * 8192 * b16.height % 2 ^ 32
    ∧ (create_dumb_branch allocDriverEx 3 c8 initTable).issued.flags
        = (OMAP_BO_TILED_32 ||| OMAP_BO_WC ||| OMAP_BO_SCANOUT)
    ∧ (create_dumb_branch allocDriverEx 3 c8 initTable).args.pitch = 4 * 8192
    ∧ (create_dumb_branch allocDriverEx 3 c8 initTable).args.size
        = 4 * 8192 * c8.height % 2 ^ 32 :=
  create_dumb_transform allocDriverEx 3 a32 b16 c8 initTable rfl rfl (by decide) (by decide)

/-- C1 counterexample: at requested height 131072 = 2^17 (bpp 32) the issued
tiled height is 131072 mod 2^16 = 0, not the requested height, and the
written-back size is (4*8192*131072) mod 2^32 = 0, not pitch*height =
4294967296; so the claim's untruncated reading fails. -/
theorem create_dumb_transform_cex :
    (create_dumb_branch allocDriverFail 3 aBig initTable).issued.tiled_height = 0
    ∧ (0 : Nat) ≠ aBig.height
    ∧ (create_dumb_branch allocDriverFail 3 aBig initTable).args.size = 0
    ∧ (0 : Nat) ≠ 4 * 8192 * aBig.height := by
  refine ⟨by decide, by decide, by decide, by decide⟩

/-- C2: the interception returns exactly the return code of the substituted
GEM_NEW call, and no outcome of the rotation-application steps changes the
returned status or the written-back argument block: two drivers that agree
on GEM_NEW but may differ arbitrarily on capability-enable, plane
enumeration, property discovery and atomic commit produce the same status,
argument block and tracked table. -/
theorem alloc_return_code (A B : AllocDriver) (fd : Int) (orig : CreateDumbArgs)
    (bufs : List BufferListItem) (hsame : B.gemNew = A.gemNew) :
    (create_dumb_branch A fd orig bufs).ret
        = (A.gemNew (create_dumb_branch A fd orig bufs).issued).1
    ∧ (create_dumb_branch B fd orig bufs).ret = (create_dumb_branch A fd orig bufs).ret
    ∧ (create_dumb_branch B fd orig bufs).args = (create_dumb_branch A fd orig bufs).args
    ∧ (create_dumb_branch B fd orig bufs).buffers
        = (create_dumb_branch A fd orig bufs).buffers := by
  refine ⟨rfl, ?_, ?_, ?_⟩ <;> simp [create_dumb_branch, hsame]

/-- Witness for C2: a driver on which every rotation step succeeds and one
on which every rotation step fails, sharing the same GEM_NEW behaviour,
agree on status, argument block and tracked table. -/
theorem alloc_return_code_witness :
    (create_dumb_branch allocDriverEx 3 a32 initTable).ret
        = (allocDriverEx.gemNew (create_dumb_branch allocDriverEx 3 a32 initTable).issued).1
    ∧ (create_dumb_branch allocDriverRotFail 3 a32 initTable).ret
        = (create_dumb_branch allocDriverEx 3 a32 initTable).ret
    ∧ (create_dumb_branch allocDriverRotFail 3 a32 initTable).args
        = (create_dumb_branch allocDriverEx 3 a32 initTable).args
    ∧ (create_dumb_branch allocDriverRotFail 3 a32 initTable).buffers
        = (create_dumb_branch allocDriverEx 3 a32 initTable).buffers :=
  alloc_return_code allocDriverEx allocDriverRotFail 3 a32 initTable rfl

/-- C10 (amended): even when the substituted GEM_NEW call fails, the branch
still returns the failing status and performs exactly the success-path
writes: handle, pitch and size are overwritten with values derived from the
failed call, and the handle is passed to the tracker's add operation (so it
is tracked unless the table is full). -/
theorem alloc_failure_writes (A : AllocDriver) (fd : Int) (orig : CreateDumbArgs)
    (bufs : List BufferListItem)
    (hfail : (A.gemNew (create_dumb_branch A fd orig bufs).issued).1 ≠ 0) :
    (create_dumb_branch A fd orig bufs).ret ≠ 0
    ∧ (create_dumb_branch A fd orig bufs).args.handle
        = (A.gemNew (create_dumb_branch A fd orig bufs).issued).2 % 2 ^ 32
    ∧ (create_dumb_branch A fd orig bufs).args.pitch
        = (if orig.bpp = 32 then 4 * 8192 else if orig.bpp = 16 then 2 * 8192 else 4 * 8192)
    ∧ (create_dumb_branch A fd orig bufs).args.size
        = (create_dumb_branch A fd orig bufs).args.pitch * orig.height % 2 ^ 32
    ∧ (create_dumb_branch A fd orig bufs).buffers
        = add_buffer bufs fd
            (u32_to_int ((A.gemNew (create_dumb_branch A fd orig bufs).issued).2 % 2 ^ 32)) := by
  refine ⟨hfail, rfl, ?_, ?_, rfl⟩ <;>
    by_cases h32 : orig.bpp = 32 <;> by_cases h16 : orig.bpp = 16 <;>
      simp [create_dumb_branch, fixed_width, h32, h16]

/-- Witness for C10: a driver whose GEM_NEW fails with -12 and handle field
0 still gets handle/pitch/size written back and the handle passed to
add_buffer. -/
theorem alloc_failure_writes_witness :
    (create_dumb_branch allocDriverFail 3 a32 initTable).ret ≠ 0
    ∧ (create_dumb_branch allocDriverFail 3 a32 initTable).args.handle
        = (allocDriverFail.gemNew (create_dumb_branch allocDriverFail 3 a32 initTable).issued).2
            % 2 ^ 32
    ∧ (create_dumb_branch allocDriverFail 3 a32 initTable).args.pitch
        = (if a32.bpp = 32 then 4 * 8192 else if a32.bpp = 16 then 2 * 8192 else 4 * 8192)
    ∧ (create_dumb_branch allocDriverFail 3 a32 initTable).args.size
        = (create_dumb_branch allocDriverFail 3 a32 initTable).args.pitch * a32.height % 2 ^ 32
    ∧ (create_dumb_branch allocDriverFail 3 a32 initTable).buffers
        = add_buffer initTable 3
            (u32_to_int
              ((allocDriverFail.gemNew
                  (create_dumb_branch allocDriverFail 3 a32 initTable).issued).2 % 2 ^ 32)) :=
  alloc_failure_writes allocDriverFail 3 a32 initTable (by decide)

/-- C10 counterexample: with a full tracked-buffer table and a failing
GEM_NEW call, the tracker state after the branch equals the state before it,
so the failure path can leave the tracker unchanged and the handle is not
added. -/
theorem alloc_failure_tracker_cex :
    (allocDriverFail.gemNew (create_dumb_branch allocDriverFail 3 a32 tFull).issued).1 ≠ 0
    ∧ (create_dumb_branch allocDriverFail 3 a32 tFull).buffers = tFull := by
  refine ⟨by decide, by decide⟩

/-- C7: the geometry transform is an involution, on the embedded mode and on
the whole CRTC argument block. -/
theorem swap_mode_involution (m : ModeInfo) (c : ModeCrtc) :
    swap_mode (swap_mode m) = m ∧ swap_crtc (swap_crtc c) = c := by
  constructor
  · cases m
    rfl
  · cases c with
    | mk a1 a2 a3 a4 a5 a6 a7 a8 mo =>
      cases mo
      rfl

/-- C8: the SETCRTC path hands the real entry point the swapped argument
block (pre-delegation), the GETCRTC path swaps the block the real entry
point returned (post-delegation), and the swap exchanges exactly hdisplay
and vdisplay, leaving every other field — in particular htotal and vtotal —
unchanged. -/
theorem crtc_swap_placement (drv : CrtcDriver) (c : ModeCrtc) :
    ioctl_setcrtc drv c = drv.setcrtc (swap_crtc c)
    ∧ ioctl_getcrtc drv c = ((drv.getcrtc c).1, swap_crtc (drv.getcrtc c).2)
    ∧ (swap_crtc c).mode.hdisplay = c.mode.vdisplay
    ∧ (swap_crtc c).mode.vdisplay = c.mode.hdisplay
    ∧ (swap_crtc c).mode.htotal = c.mode.htotal
    ∧ (swap_crtc c).mode.vtotal = c.mode.vtotal
    ∧ (swap_crtc c).mode.clock = c.mode.clock
    ∧ (swap_crtc c).mode.hsync_start = c.mode.hsync_start
    ∧ (swap_crtc c).mode.hsync_end = c.mode.hsync_end
    ∧ (swap_crtc c).mode.hskew = c.mode.hskew
    ∧ (swap_crtc c).mode.vsync_start = c.mode.vsync_start
    ∧ (swap_crtc c).mode.vsync_end = c.mode.vsync_end
    ∧ (swap_crtc c).mode.vscan = c.mode.vscan
    ∧ (swap_crtc c).mode.vrefresh = c.mode.vrefresh
    ∧ (swap_crtc c).mode.mflags = c.mode.mflags
    ∧ (swap_crtc c).mode.mode_type = c.mode.mode_type
    ∧ (swap_crtc c).mode.name = c.mode.name
    ∧ (swap_crtc c).set_connectors_ptr = c.set_connectors_ptr
    ∧ (swap_crtc c).count_connectors = c.count_connectors
    ∧ (swap_crtc c).crtc_id = c.crtc_id
    ∧ (swap_crtc c).fb_id = c.fb_id
    ∧ (swap_crtc c).x = c.x
    ∧ (swap_crtc c).y = c.y
    ∧ (swap_crtc c).gamma_size = c.gamma_size
    ∧ (swap_crtc c).mode_valid = c.mode_valid := by
  refine ⟨rfl, rfl, ?_, ?_, ?_, ?_, ?_, ?_, ?_, ?_, ?_, ?_, ?_, ?_, ?_, ?_, ?_, ?_, ?_,
    ?_, ?_, ?_, ?_, ?_, ?_⟩ <;> rfl

end TilerShim
